import Mathlib

/-!
Shallow embedding of the playback process lifecycle manager of the
terminal-radio repository (`src/radio-player.ts`), together with the
station-directory search wrappers of the same class. The `RadioPlayer`
class is modelled as a state record (`PlayerState`) and each method as a
pure function from the state (plus an environment describing the outcome
of OS primitives: `process.kill`, `pgrep`, `spawn`) to the new state and
an ordered trace of observable events (signals issued, spawn attempts,
console messages). Asynchronous subprocess events (`error`, `exit`) are
modelled as separate handler functions, applied to whatever state holds
when the event fires, exactly as the registered closures run in Node.
-/

namespace TerminalRadio

/-- Station record (`RadioStation` in `src/types.ts`).
Modelled from the spec: `types.ts` is not in the sources; the spec lists
the fields as name, stream URL, and optional genre, country, bitrate,
codec. -/
structure RadioStation where
  name : String
  url : String
  genre : Option String := none
  country : Option String := none
  bitrate : Option Nat := none
  codec : Option String := none
deriving DecidableEq, Repr

/-- Directory search response record (`RadioBrowserStation` in
`src/types.ts`). Modelled from the spec: the directory returns records
with fields name, resolved-or-raw URL, tags, country, bitrate, codec and
a last-check-ok flag; `url_resolved` may be absent, which together with
the empty string is the falsy case of the `||` in the mapping code. -/
structure RadioBrowserStation where
  name : String
  url : String
  url_resolved : Option String
  tags : String
  country : String
  bitrate : Nat
  codec : String
  lastcheckok : Nat
deriving DecidableEq, Repr

/-- A Node `ChildProcess` handle as the code observes it: its `pid`
(absent when the spawn failed) and its `killed` flag (set only by
`ChildProcess.kill()`, which this code never calls). -/
structure ChildProc where
  pid : Option Nat
  killed : Bool
deriving DecidableEq, Repr

/-- The mutable fields of the `RadioPlayer` class. -/
structure PlayerState where
  currentProcess : Option ChildProc
  currentStation : Option RadioStation
  processIds : List Nat
deriving DecidableEq, Repr

/-- Freshly constructed `RadioPlayer`. -/
def initState : PlayerState :=
  { currentProcess := none, currentStation := none, processIds := [] }

/-- The two player backends the adapter can spawn. -/
inductive Backend
  | mpv
  | vlc
deriving DecidableEq, Repr

/-- Signals the code sends (`SIGTERM` for graceful, `SIGKILL` for forced). -/
inductive Sig
  | SIGTERM
  | SIGKILL
deriving DecidableEq, Repr

/-- Console messages the class emits, one constructor per distinct
`console.log` and `console.error` in `radio-player.ts`. -/
inductive Msg
  | playbackError (s : String)
  | playbackStopped
  | nowPlaying
  | installHint
  | vlcError (s : String)
  | failedToStartPlayback
  | failedToStartVLC
  | searchFailed
  | genreSearchFailed
deriving DecidableEq, Repr

/-- Observable events, in program order: a `process.kill` issue attempt
(negative target means a process group), a `setTimeout`-scheduled
deferred forced kill (either with a captured pid, or the closure that
re-reads `this.currentProcess` when it fires), a `spawn` attempt with
the stream URL, or a console message. -/
inductive Ev
  | kill (target : Int) (sig : Sig)
  | deferKill (target : Int) (sig : Sig)
  | deferKillCurrent
  | spawnAttempt (b : Backend) (url : String)
  | msg (m : Msg)
deriving DecidableEq, Repr

/-- Environment for the OS primitives: whether a `process.kill` call
succeeds or throws (already-dead `ESRCH`, permission-denied `EPERM`),
and what `execSync('pgrep ...')` yields (`none` = the command threw,
i.e. no matching process; `some lines` = its trimmed output split on
newlines). -/
structure Env where
  killOk : Int → Sig → Bool
  pgrep : Backend → Option (List String)

/-- `process.kill(target, sig)` as a fallible primitive. -/
def processKill (env : Env) (target : Int) (sig : Sig) : Except String Unit :=
  if env.killOk target sig then .ok () else .error "kill failed"

/-- A lone `try { process.kill(target, sig) } catch { /* ignore */ }`:
the issue attempt is made either way and any exception is swallowed. -/
def tryProcessKill (env : Env) (target : Int) (sig : Sig) : List Ev :=
  match processKill env target sig with
  | .ok _ => [Ev.kill target sig]
  | .error _ => [Ev.kill target sig]

/-- `RadioPlayer.killAllProcesses(force)`: signal the current process
group (graceful `SIGTERM` plus a deferred `SIGKILL`, or immediate
`SIGKILL` when forced), then every tracked process id likewise, then
clear the tracked-id list. Each `try` block is modelled by a `match` on
the fallible kill: when the graceful `SIGTERM` throws, the `catch` is
entered before the `setTimeout` line, so no deferred kill is scheduled. -/
def killAllProcesses (env : Env) (st : PlayerState) (force : Bool := false) :
    PlayerState × List Ev :=
  let curEvs : List Ev :=
    match st.currentProcess with
    | some cp =>
      if !cp.killed then
        if force then
          match cp.pid with
          | some pid => tryProcessKill env (-(pid : Int)) .SIGKILL
          | none => []
        else
          match cp.pid with
          | some pid =>
            match processKill env (-(pid : Int)) .SIGTERM with
            | .ok _ => [Ev.kill (-(pid : Int)) .SIGTERM, Ev.deferKillCurrent]
            | .error _ => [Ev.kill (-(pid : Int)) .SIGTERM]
          | none => [Ev.deferKillCurrent]
      else []
    | none => []
  let pidEvs : List Ev :=
    st.processIds.flatMap fun pid =>
      if force then tryProcessKill env (-(pid : Int)) .SIGKILL
      else
        match processKill env (-(pid : Int)) .SIGTERM with
        | .ok _ =>
          [Ev.kill (-(pid : Int)) .SIGTERM, Ev.deferKill (-(pid : Int)) .SIGKILL]
        | .error _ => [Ev.kill (-(pid : Int)) .SIGTERM]
  ({ st with processIds := [] }, curEvs ++ pidEvs)

/-- `RadioPlayer.stop()`: graceful kill sweep, then clear the handle and
the current station. -/
def stop (env : Env) (st : PlayerState) : PlayerState × List Ev :=
  let r := killAllProcesses env st false
  ({ r.1 with currentProcess := none, currentStation := none }, r.2)

/-- JavaScript `parseInt` restricted to the digit strings `pgrep`
emits: `none` models `NaN` (on which `process.kill` throws). -/
def parseIntJS (s : String) : Option Nat :=
  let ds := s.data.takeWhile Char.isDigit
  if ds.isEmpty then none else (String.mk ds).toNat?

/-- One backend's half of `RadioPlayer.killOrphanedProcesses`: run
`pgrep`, and `SIGKILL` each listed pid, skipping empty lines (the
`if (pid)` truthiness check) and swallowing per-pid kill failures; a
`pgrep` failure (no processes) is itself swallowed. -/
def killOrphanSweep (env : Env) (b : Backend) : List Ev :=
  match env.pgrep b with
  | none => []
  | some lines =>
    lines.flatMap fun line =>
      if line = "" then []
      else
        match parseIntJS line with
        | some pid => tryProcessKill env (pid : Int) .SIGKILL
        | none => []

/-- `RadioPlayer.killOrphanedProcesses()`: sweep mpv processes, then
vlc processes. -/
def killOrphanedProcesses (env : Env) : List Ev :=
  killOrphanSweep env .mpv ++ killOrphanSweep env .vlc

/-- `RadioPlayer.forceStop()`: immediate forced kill of all tracked
processes, orphan sweep by binary name, then clear the handle and the
current station. -/
def forceStop (env : Env) (st : PlayerState) : PlayerState × List Ev :=
  let r := killAllProcesses env st true
  ({ r.1 with currentProcess := none, currentStation := none },
   r.2 ++ killOrphanedProcesses env)

/-- Outcome of a `spawn` call: it returned a handle (whose pid is absent
when the binary was not found — the `error` event is then delivered
later), or it threw synchronously. -/
inductive SpawnOutcome
  | ok (pid : Option Nat)
  | throws
deriving DecidableEq, Repr

/-- Contiguous-sublist test on character lists, used to model
JavaScript `String.prototype.includes`. -/
def hasInfix (pat : List Char) : List Char → Bool
  | [] => pat.isEmpty
  | c :: cs => pat.isPrefixOf (c :: cs) || hasInfix pat cs

/-- `error.message.includes('ENOENT')`. -/
def containsENOENT (msg : String) : Bool :=
  hasInfix "ENOENT".data msg.data

/-- `RadioPlayer.tryVLC(station)`: spawn the vlc backend, assign the
handle to `currentProcess` and track its pid when present; a synchronous
spawn throw is caught (the assignment does not happen) and reported. -/
def tryVLC (st : PlayerState) (station : RadioStation) (vlcSpawn : SpawnOutcome) :
    PlayerState × List Ev :=
  match vlcSpawn with
  | .ok pid =>
    let st1 := { st with currentProcess := some { pid := pid, killed := false } }
    let st2 :=
      match pid with
      | some p => { st1 with processIds := st1.processIds ++ [p] }
      | none => st1
    (st2, [Ev.spawnAttempt .vlc station.url])
  | .throws =>
    (st, [Ev.spawnAttempt .vlc station.url, Ev.msg .failedToStartVLC])

/-- The `error`-event handler registered on the mpv handle: on an
ENOENT message fall back to vlc, otherwise report a playback error. -/
def mpvOnError (st : PlayerState) (station : RadioStation) (errMsg : String)
    (vlcSpawn : SpawnOutcome) : PlayerState × List Ev :=
  if containsENOENT errMsg then tryVLC st station vlcSpawn
  else (st, [Ev.msg (.playbackError errMsg)])

/-- The `error`-event handler registered on the vlc handle: on an
ENOENT message print the install hint (no further fallback), otherwise
report a vlc playback error. -/
def vlcOnError (st : PlayerState) (errMsg : String) : PlayerState × List Ev :=
  if containsENOENT errMsg then (st, [Ev.msg .installHint])
  else (st, [Ev.msg (.vlcError errMsg)])

/-- The `exit`-event handler (identical on both backends): a non-zero,
non-null exit code prints the stopped notice; the state is untouched. -/
def onExit (st : PlayerState) (code : Option Int) : PlayerState × List Ev :=
  match code with
  | some c => if c ≠ 0 then (st, [Ev.msg .playbackStopped]) else (st, [])
  | none => (st, [])

/-- Synchronous body of `RadioPlayer.play(station)` up to the one-second
`await`: stop any current playback, record the station, spawn the mpv
backend, assign the handle and track its pid; a synchronous spawn throw
is caught, reported, and followed by the vlc fallback. -/
def play (env : Env) (st : PlayerState) (station : RadioStation)
    (mpvSpawn : SpawnOutcome) (vlcSpawn : SpawnOutcome) : PlayerState × List Ev :=
  let r := stop env st
  let st2 := { r.1 with currentStation := some station }
  match mpvSpawn with
  | .ok pid =>
    let st3 := { st2 with currentProcess := some { pid := pid, killed := false } }
    let st4 :=
      match pid with
      | some p => { st3 with processIds := st3.processIds ++ [p] }
      | none => st3
    (st4, r.2 ++ [Ev.spawnAttempt .mpv station.url])
  | .throws =>
    let rv := tryVLC st2 station vlcSpawn
    (rv.1,
     r.2 ++ [Ev.spawnAttempt .mpv station.url, Ev.msg .failedToStartPlayback] ++ rv.2)

/-- The tail of `play` after the one-second delay: announce success when
a handle is still assigned and unkilled at that time. -/
def playResolve (st : PlayerState) : List Ev :=
  match st.currentProcess with
  | some cp => if !cp.killed then [Ev.msg .nowPlaying] else []
  | none => []

/-- `RadioPlayer.getCurrentStation()`. -/
def getCurrentStation (st : PlayerState) : Option RadioStation :=
  st.currentStation

/-- `RadioPlayer.isPlaying()`: `currentProcess !== null && !currentProcess.killed`. -/
def isPlaying (st : PlayerState) : Bool :=
  match st.currentProcess with
  | some cp => !cp.killed
  | none => false

/-- Query parameters of the directory search request, as the two search
methods build them for `axios.get`. -/
structure SearchParams where
  name : Option String := none
  tag : Option String := none
  limit : Nat
  hidebroken : Bool
  order : String
  reverse : Bool
deriving DecidableEq, Repr

/-- Parameters sent by `searchStations(query, limit)`. -/
def searchStationsParams (query : String) (limit : Nat) : SearchParams :=
  { name := some query, limit := limit, hidebroken := true,
    order := "votes", reverse := true }

/-- Parameters sent by `searchByGenre(genre, limit)`. -/
def searchByGenreParams (genre : String) (limit : Nat) : SearchParams :=
  { tag := some genre, limit := limit, hidebroken := true,
    order := "votes", reverse := true }

/-- JavaScript `a || b` for an optional string `a`: yields `b` when `a`
is absent or falsy (the empty string). -/
def jsOrElse (a : Option String) (b : String) : String :=
  match a with
  | some s => if s = "" then b else s
  | none => b

/-- The record mapping both search methods apply to each directory
entry: `url` is `url_resolved || url`, `genre` is the tag string. -/
def mapBrowserStation (s : RadioBrowserStation) : RadioStation :=
  { name := s.name
    url := jsOrElse s.url_resolved s.url
    genre := some s.tags
    country := some s.country
    bitrate := some s.bitrate
    codec := some s.codec }

/-- A directory server: maps the request parameters to either a parsed
response body or a network/parsing failure (anything the `catch` sees). -/
def DirServer : Type :=
  SearchParams → Except String (List RadioBrowserStation)

/-- `RadioPlayer.searchStations(query, limit = 20)`: on success, keep
only entries with `lastcheckok === 1` and map them to stations — there
is no client-side truncation to `limit`, which is only a request
parameter; on failure, report and return the empty list. -/
def searchStations (server : DirServer) (query : String) (limit : Nat := 20) :
    List RadioStation × List Ev :=
  match server (searchStationsParams query limit) with
  | .ok data =>
    ((data.filter fun s => s.lastcheckok == 1).map mapBrowserStation, [])
  | .error _ => ([], [Ev.msg .searchFailed])

/-- `RadioPlayer.searchByGenre(genre, limit = 20)`: same shape as
`searchStations` with the `tag` parameter in place of `name`. -/
def searchByGenre (server : DirServer) (genre : String) (limit : Nat := 20) :
    List RadioStation × List Ev :=
  match server (searchByGenreParams genre limit) with
  | .ok data =>
    ((data.filter fun s => s.lastcheckok == 1).map mapBrowserStation, [])
  | .error _ => ([], [Ev.msg .genreSearchFailed])

/-- States of the player reachable from a fresh `RadioPlayer` by the
public operations and the registered event handlers, under arbitrary
environments, spawn outcomes and event payloads. -/
inductive Reachable : PlayerState → Prop where
  | init : Reachable initState
  | stepPlay (env st station m v) :
      Reachable st → Reachable (play env st station m v).1
  | stepStop (env st) : Reachable st → Reachable (stop env st).1
  | stepForceStop (env st) : Reachable st → Reachable (forceStop env st).1
  | stepMpvOnError (st station errMsg v) :
      Reachable st → Reachable (mpvOnError st station errMsg v).1
  | stepVlcOnError (st errMsg) :
      Reachable st → Reachable (vlcOnError st errMsg).1
  | stepOnExit (st code) : Reachable st → Reachable (onExit st code).1

/-- The structural invariant the lifecycle operations maintain: when no
handle is assigned no process ids are tracked, and any assigned handle
has its `killed` flag unset (nothing in the class ever calls
`ChildProcess.kill()`). -/
def StateInv (st : PlayerState) : Prop :=
  (st.currentProcess = none → st.processIds = []) ∧
  ∀ cp, st.currentProcess = some cp → cp.killed = false

/-- Claim-side url selection for a directory entry, following the
specification's words: the resolved URL when it is a non-empty string,
otherwise (absent or empty) the raw url field. -/
def specUrlChoice (e : RadioBrowserStation) : String :=
  match e.url_resolved with
  | some r => if r ≠ "" then r else e.url
  | none => e.url

/-- Environment in which every kill succeeds and `pgrep` finds nothing. -/
def env0 : Env := { killOk := fun _ _ => true, pgrep := fun _ => none }

/-- The station of the specification's failure scenario. -/
def stationTestFM : RadioStation :=
  { name := "Test FM", url := "http://example.invalid/stream" }

/-- A reachable directory entry with a non-empty resolved URL. -/
def entryOkA : RadioBrowserStation :=
  { name := "A", url := "http://a.example/raw",
    url_resolved := some "http://a.example/resolved",
    tags := "jazz", country := "US", bitrate := 128, codec := "MP3",
    lastcheckok := 1 }

/-- A reachable directory entry with no resolved URL. -/
def entryOkB : RadioBrowserStation :=
  { name := "B", url := "http://b.example/raw", url_resolved := none,
    tags := "rock", country := "DE", bitrate := 192, codec := "AAC",
    lastcheckok := 1 }

/-- A directory entry marked not-ok, with an empty resolved URL. -/
def entryBroken : RadioBrowserStation :=
  { name := "C", url := "http://c.example/raw", url_resolved := some "",
    tags := "pop", country := "FR", bitrate := 64, codec := "MP3",
    lastcheckok := 0 }

/-- A directory server that ignores the limit parameter and always
returns two reachable entries. -/
def overfullServer : DirServer := fun _ => .ok [entryOkA, entryOkB]

/-- A directory server returning three entries, one marked not-ok. -/
def mixedServer : DirServer := fun _ => .ok [entryOkA, entryOkB, entryBroken]

/-- An ENOENT error message as Node delivers it for a missing mpv. -/
def enoentMpvMsg : String := "spawn mpv ENOENT"

/-- An ENOENT error message as Node delivers it for a missing vlc. -/
def enoentVlcMsg : String := "spawn vlc ENOENT"

/-- Recogniser for spawn-attempt events in a trace. -/
def isSpawnEv : Ev → Bool
  | .spawnAttempt _ _ => true
  | _ => false

/-- Every reachable player state satisfies the structural invariant. -/
theorem stateInv_reachable (st : PlayerState) (h : Reachable st) : StateInv st := by
  induction h with
  | init => exact ⟨fun _ => rfl, by simp [initState]⟩
  | stepPlay env st station m v _ ih =>
    cases m with
    | ok pid => cases pid <;> simp [StateInv, play, stop, killAllProcesses]
    | throws =>
      cases v with
      | ok pid =>
        cases pid <;> simp [StateInv, play, stop, killAllProcesses, tryVLC]
      | throws => simp [StateInv, play, stop, killAllProcesses, tryVLC]
  | stepStop env st _ ih => simp [StateInv, stop, killAllProcesses]
  | stepForceStop env st _ ih => simp [StateInv, forceStop, killAllProcesses]
  | stepMpvOnError st station errMsg v _ ih =>
    by_cases hc : containsENOENT errMsg
    · cases v with
      | ok pid => cases pid <;> simp [StateInv, mpvOnError, hc, tryVLC]
      | throws =>
        simpa [StateInv, mpvOnError, hc, tryVLC] using ih
    · simpa [StateInv, mpvOnError, hc] using ih
  | stepVlcOnError st errMsg _ ih =>
    by_cases hc : containsENOENT errMsg <;> simpa [StateInv, vlcOnError, hc] using ih
  | stepOnExit st code _ ih =>
    cases code with
    | none => simpa [onExit] using ih
    | some c => by_cases hc : c ≠ 0 <;> simpa [onExit, hc] using ih

/-- `play` records the requested station before and independent of any
spawn outcome. -/
theorem play_currentStation (env : Env) (st : PlayerState)
    (station : RadioStation) (m v : SpawnOutcome) :
    (play env st station m v).1.currentStation = some station := by
  cases m with
  | ok pid => cases pid <;> simp [play]
  | throws =>
    cases v with
    | ok pid => cases pid <;> simp [play, tryVLC]
    | throws => simp [play, tryVLC]

/-- Length of a filtered list, counted as total minus rejected. -/
theorem length_filter_eq_sub {α : Type} (p : α → Bool) (l : List α) :
    (l.filter p).length = l.length - (l.filter fun a => !(p a)).length := by
  induction l with
  | nil => rfl
  | cons a l ih =>
    have hle := List.length_filter_le (fun a => !(p a)) l
    cases h : p a <;> simp [List.filter_cons, h, ih] <;> omega

/-- The url produced by the search mapping is exactly the claim-side
resolved-or-raw selection. -/
theorem mapBrowserStation_url (e : RadioBrowserStation) :
    (mapBrowserStation e).url = specUrlChoice e := by
  cases h : e.url_resolved with
  | none => simp [mapBrowserStation, jsOrElse, specUrlChoice, h]
  | some r =>
    by_cases hr : r = "" <;>
      simp [mapBrowserStation, jsOrElse, specUrlChoice, h, hr]

/-- C1 counterexample: for the station of the scenario, after `start`
with a successful spawn followed by the subprocess exiting with code 1,
the stopped notice is emitted but `isPlaying()` returns `true`, not
`false` as the claim states — the exit handler neither clears the
handle nor sets its `killed` flag. -/
theorem C1_counterexample :
    ((onExit (play env0 initState stationTestFM (.ok (some 100)) (.ok none)).1
        (some 1)).2 = [Ev.msg .playbackStopped]) ∧
    isPlaying (onExit (play env0 initState stationTestFM (.ok (some 100))
        (.ok none)).1 (some 1)).1 = true := by
  exact ⟨rfl, rfl⟩

/-- C1 (amended): `isPlaying()` returns true iff a primary subprocess
handle exists whose `killed` flag is unset (the flag only records that
`ChildProcess.kill()` was invoked, which this code never does); after
`start(station)` followed by a non-zero exit code, a stopped notice is
emitted and no exception reaches the caller, but `isPlaying()` returns
true, because observing the exit does not clear the handle. -/
theorem C1_amended (st : PlayerState) :
    (isPlaying st = true ↔ ∃ cp, st.currentProcess = some cp ∧ cp.killed = false) ∧
    ((onExit (play env0 initState stationTestFM (.ok (some 100)) (.ok none)).1
        (some 1)).2 = [Ev.msg .playbackStopped]) ∧
    isPlaying (onExit (play env0 initState stationTestFM (.ok (some 100))
        (.ok none)).1 (some 1)).1 = true := by
  refine ⟨?_, rfl, rfl⟩
  cases h : st.currentProcess with
  | none => simp [isPlaying, h]
  | some cp => cases hk : cp.killed <;> simp [isPlaying, h, hk]

/-- C2 counterexample: when the directory ignores the limit parameter
and returns two reachable entries for a requested limit of 1, both
search methods return lists of length 2 — the code never truncates
client-side, so the claimed bound fails. -/
theorem C2_counterexample :
    ¬ ((searchStations overfullServer "q" 1).1.length ≤ 1) ∧
    ¬ ((searchByGenre overfullServer "g" 1).1.length ≤ 1) := by
  exact ⟨by decide, by decide⟩

/-- C2 (amended): the requested limit is forwarded to the directory as
the `limit` request parameter but is not enforced client-side; the
result length is bounded by the length of the directory's response, and
hence by `limit` exactly when the response itself has at most `limit`
entries. -/
theorem C2_amended (server : DirServer) (q g : String) (l : Nat)
    (resp resp2 : List RadioBrowserStation)
    (h1 : server (searchStationsParams q l) = .ok resp)
    (h2 : server (searchByGenreParams g l) = .ok resp2)
    (hl1 : resp.length ≤ l) (hl2 : resp2.length ≤ l) :
    (searchStations server q l).1.length ≤ l ∧
    (searchByGenre server g l).1.length ≤ l ∧
    (searchStationsParams q l).limit = l ∧
    (searchByGenreParams g l).limit = l := by
  refine ⟨?_, ?_, rfl, rfl⟩
  · simp only [searchStations, h1]
    simpa using le_trans (List.length_filter_le _ _) hl1
  · simp only [searchByGenre, h2]
    simpa using le_trans (List.length_filter_le _ _) hl2

/-- Witness for C2 (amended) at a directory response of two entries and
a requested limit of 2. -/
theorem C2_witness :
    (searchStations overfullServer "q" 2).1.length ≤ 2 ∧
    (searchByGenre overfullServer "g" 2).1.length ≤ 2 ∧
    (searchStationsParams "q" 2).limit = 2 ∧
    (searchByGenreParams "g" 2).limit = 2 :=
  C2_amended overfullServer "q" "g" 2 [entryOkA, entryOkB] [entryOkA, entryOkB]
    rfl rfl (by decide) (by decide)

/-- C5: for every station with a non-empty stream URL, `start(station)`
followed immediately by `getCurrentStation()` returns that station,
whatever the prior state and whatever the spawn outcomes. -/
theorem C5_play_getCurrentStation (env : Env) (st : PlayerState)
    (station : RadioStation) (m v : SpawnOutcome) (h : station.url ≠ "") :
    getCurrentStation (play env st station m v).1 = some station := by
  simpa [getCurrentStation] using play_currentStation env st station m v

/-- Witness for C5 at the scenario station from the initial state. -/
theorem C5_witness :
    stationTestFM.url ≠ "" ∧
    getCurrentStation (play env0 initState stationTestFM (.ok (some 100))
        (.ok none)).1 = some stationTestFM :=
  ⟨by decide,
   C5_play_getCurrentStation env0 initState stationTestFM (.ok (some 100))
     (.ok none) (by decide)⟩

/-- C6: `forceStop()` never raises in any state: it always returns the
fully cleared state (so a second consecutive call finds nothing tracked
and changes nothing, performing only the orphan sweep), it performs
only the sweep when nothing is tracked, and the resulting state is
independent of which kill calls fail — all termination failures are
swallowed. -/
theorem C6_forceStop_total (env : Env) (st : PlayerState)
    (cs : Option RadioStation) :
    ((forceStop env (forceStop env st).1).1 = (forceStop env st).1) ∧
    (forceStop env st).1.currentProcess = none ∧
    (forceStop env st).1.currentStation = none ∧
    (forceStop env st).1.processIds = [] ∧
    ((forceStop env (forceStop env st).1).2 = killOrphanedProcesses env) ∧
    ((forceStop env
        { currentProcess := none, currentStation := cs, processIds := [] }).2
      = killOrphanedProcesses env) ∧
    (∀ killOk2, (forceStop { env with killOk := killOk2 } st).1
      = (forceStop env st).1) := by
  exact ⟨rfl, rfl, rfl, rfl, rfl, rfl, fun _ => rfl⟩

/-- C7: calling `stop()` in any reachable state where nothing is
playing issues no kill signal, schedules nothing, spawns nothing,
emits nothing, and leaves `isPlaying()` false. -/
theorem C7_stop_noop (env : Env) (st : PlayerState) (hr : Reachable st)
    (hp : isPlaying st = false) :
    (stop env st).2 = [] ∧ isPlaying (stop env st).1 = false := by
  have hinv := stateInv_reachable st hr
  have hcp : st.currentProcess = none := by
    cases h : st.currentProcess with
    | none => rfl
    | some cp =>
      have := hinv.2 cp h
      simp [isPlaying, h, this] at hp
  have hids : st.processIds = [] := hinv.1 hcp
  constructor
  · simp [stop, killAllProcesses, hcp, hids]
  · simp [stop, isPlaying]

/-- Witness for C7 at the freshly constructed player. -/
theorem C7_witness :
    (stop env0 initState).2 = [] ∧ isPlaying (stop env0 initState).1 = false :=
  C7_stop_noop env0 initState Reachable.init (by decide)

/-- C3 counterexample: mpv absent (handle without pid, ENOENT error
event) falls back to exactly one vlc spawn attempt; vlc also absent
surfaces the install hint; but the failed vlc handle remains assigned,
so `isPlaying()` returns true — not false as the claim states. -/
theorem C3_counterexample :
    ((mpvOnError (play env0 initState stationTestFM (.ok none) (.ok none)).1
        stationTestFM enoentMpvMsg (.ok none)).2
      = [Ev.spawnAttempt .vlc stationTestFM.url]) ∧
    ((vlcOnError (mpvOnError (play env0 initState stationTestFM (.ok none)
        (.ok none)).1 stationTestFM enoentMpvMsg (.ok none)).1 enoentVlcMsg).2
      = [Ev.msg .installHint]) ∧
    isPlaying (vlcOnError (mpvOnError (play env0 initState stationTestFM
        (.ok none) (.ok none)).1 stationTestFM enoentMpvMsg (.ok none)).1
        enoentVlcMsg).1 = true := by
  refine ⟨?_, ?_, ?_⟩ <;> decide

/-- C3 (amended): an ENOENT launch failure of the primary backend makes
exactly one spawn attempt at the secondary backend; the secondary
backend's error handler makes no spawn attempt for any message, so no
further fallback ever occurs, and on ENOENT it surfaces the install
hint; however the failed secondary handle stays assigned, so
`isPlaying()` returns true, not false. -/
theorem C3_amended (st st2 st3 : PlayerState) (station : RadioStation)
    (emsg emsg2 m : String) (v : SpawnOutcome)
    (h : containsENOENT emsg = true) (h2 : containsENOENT emsg2 = true) :
    ((mpvOnError st station emsg v).2.filter isSpawnEv
      = [Ev.spawnAttempt .vlc station.url]) ∧
    ((vlcOnError st3 m).2.filter isSpawnEv = []) ∧
    (vlcOnError st2 emsg2).2 = [Ev.msg .installHint] ∧
    isPlaying (vlcOnError (mpvOnError (play env0 initState stationTestFM
        (.ok none) (.ok none)).1 stationTestFM emsg (.ok none)).1 emsg2).1
      = true := by
  refine ⟨?_, ?_, ?_, ?_⟩
  · cases v <;> simp [mpvOnError, h, tryVLC, isSpawnEv]
  · by_cases hm : containsENOENT m <;> simp [vlcOnError, hm, isSpawnEv]
  · simp [vlcOnError, h2]
  · simp [play, stop, killAllProcesses, initState, mpvOnError, h, tryVLC,
      vlcOnError, h2, isPlaying]

/-- Witness for C3 (amended) at the concrete ENOENT messages. -/
theorem C3_witness :
    ((mpvOnError initState stationTestFM enoentMpvMsg (.ok none)).2.filter
        isSpawnEv = [Ev.spawnAttempt .vlc stationTestFM.url]) ∧
    ((vlcOnError initState "any error").2.filter isSpawnEv = []) ∧
    (vlcOnError initState enoentVlcMsg).2 = [Ev.msg .installHint] ∧
    isPlaying (vlcOnError (mpvOnError (play env0 initState stationTestFM
        (.ok none) (.ok none)).1 stationTestFM enoentMpvMsg (.ok none)).1
        enoentVlcMsg).1 = true :=
  C3_amended initState initState initState stationTestFM enoentMpvMsg
    enoentVlcMsg "any error" (.ok none) (by decide) (by decide)

/-- C4: starting station B directly after station A (no intervening
stop) leaves exactly B's pid tracked — A's pid is gone (when the OS did
not reuse it) and a `SIGTERM` to A's process group is issued before B's
spawn attempt — and `getCurrentStation()` returns B. -/
theorem C4_sequential_plays (env env2 : Env) (st0 : PlayerState)
    (A B : RadioStation) (pA pB : Nat) (vA vB : SpawnOutcome)
    (hne : pA ≠ pB) :
    ((play env2 (play env st0 A (.ok (some pA)) vA).1 B (.ok (some pB)) vB).1.processIds
      = [pB]) ∧
    pA ∉ (play env2 (play env st0 A (.ok (some pA)) vA).1 B
        (.ok (some pB)) vB).1.processIds ∧
    getCurrentStation (play env2 (play env st0 A (.ok (some pA)) vA).1 B
        (.ok (some pB)) vB).1 = some B ∧
    ∃ l1 l2,
      (play env2 (play env st0 A (.ok (some pA)) vA).1 B (.ok (some pB)) vB).2
        = l1 ++ Ev.spawnAttempt .mpv B.url :: l2 ∧
      Ev.kill (-(pA : Int)) .SIGTERM ∈ l1 := by
  have hst1 : (play env st0 A (.ok (some pA)) vA).1
      = { currentProcess := some { pid := some pA, killed := false },
          currentStation := some A, processIds := [pA] } := by
    simp [play, stop, killAllProcesses]
  rw [hst1]
  by_cases hk : env2.killOk (-(pA : Int)) .SIGTERM
  · refine ⟨by simp [play, stop, killAllProcesses], ?_, ?_,
      [Ev.kill (-(pA : Int)) .SIGTERM, Ev.deferKillCurrent,
       Ev.kill (-(pA : Int)) .SIGTERM, Ev.deferKill (-(pA : Int)) .SIGKILL],
      [], ?_, ?_⟩
    · simp [play, stop, killAllProcesses, hne]
    · simp [getCurrentStation, play_currentStation]
    · simp [play, stop, killAllProcesses, processKill, hk]
    · simp
  · refine ⟨by simp [play, stop, killAllProcesses], ?_, ?_,
      [Ev.kill (-(pA : Int)) .SIGTERM, Ev.kill (-(pA : Int)) .SIGTERM],
      [], ?_, ?_⟩
    · simp [play, stop, killAllProcesses, hne]
    · simp [getCurrentStation, play_currentStation]
    · simp [play, stop, killAllProcesses, processKill, hk]
    · simp

/-- Witness for C4 at two concrete plays with distinct pids. -/
theorem C4_witness :
    ((play env0 (play env0 initState stationTestFM (.ok (some 100))
        (.ok none)).1 { name := "B", url := "http://b.example" }
        (.ok (some 200)) (.ok none)).1.processIds = [200]) ∧
    (100 : Nat) ∉ (play env0 (play env0 initState stationTestFM (.ok (some 100))
        (.ok none)).1 { name := "B", url := "http://b.example" }
        (.ok (some 200)) (.ok none)).1.processIds ∧
    getCurrentStation (play env0 (play env0 initState stationTestFM
        (.ok (some 100)) (.ok none)).1 { name := "B", url := "http://b.example" }
        (.ok (some 200)) (.ok none)).1
      = some { name := "B", url := "http://b.example" } ∧
    ∃ l1 l2,
      (play env0 (play env0 initState stationTestFM (.ok (some 100))
          (.ok none)).1 { name := "B", url := "http://b.example" }
          (.ok (some 200)) (.ok none)).2
        = l1 ++ Ev.spawnAttempt .mpv "http://b.example" :: l2 ∧
      Ev.kill (-(100 : Nat) : Int) .SIGTERM ∈ l1 :=
  C4_sequential_plays env0 env0 initState stationTestFM
    { name := "B", url := "http://b.example" } 100 200 (.ok none) (.ok none)
    (by decide)

/-- C8: each search result consists of exactly the ok-marked entries of
the directory response: with `n` entries of which `k` are marked
not-ok, the returned list has length `n - k`, for both search methods. -/
theorem C8_filter_broken (server : DirServer) (q g : String) (l : Nat)
    (resp resp2 : List RadioBrowserStation)
    (h1 : server (searchStationsParams q l) = .ok resp)
    (h2 : server (searchByGenreParams g l) = .ok resp2) :
    (searchStations server q l).1.length
      = resp.length - (resp.filter fun s => !(s.lastcheckok == 1)).length ∧
    (searchByGenre server g l).1.length
      = resp2.length - (resp2.filter fun s => !(s.lastcheckok == 1)).length := by
  constructor
  · simp only [searchStations, h1]
    simpa using length_filter_eq_sub (fun s => s.lastcheckok == 1) resp
  · simp only [searchByGenre, h2]
    simpa using length_filter_eq_sub (fun s => s.lastcheckok == 1) resp2

/-- Witness for C8 at a response of three entries, one marked not-ok:
the result length is 3 - 1 = 2. -/
theorem C8_witness :
    (searchStations mixedServer "q" 20).1.length
      = [entryOkA, entryOkB, entryBroken].length
        - ([entryOkA, entryOkB, entryBroken].filter
            fun s => !(s.lastcheckok == 1)).length ∧
    (searchByGenre mixedServer "g" 20).1.length
      = [entryOkA, entryOkB, entryBroken].length
        - ([entryOkA, entryOkB, entryBroken].filter
            fun s => !(s.lastcheckok == 1)).length :=
  C8_filter_broken mixedServer "q" "g" 20 [entryOkA, entryOkB, entryBroken]
    [entryOkA, entryOkB, entryBroken] rfl rfl

/-- C9: `play` records the requested station unconditionally before any
spawn, for every spawn outcome including synchronous throws; neither
error handler nor the exit handler changes the recorded station, while
`stop` and `forceStop` clear it — so the station persists until the
next play, stop, or forceStop. -/
theorem C9_station_recorded (env : Env) (st st2 st3 : PlayerState)
    (station : RadioStation) (m v v2 : SpawnOutcome) (emsg emsg2 : String)
    (code : Option Int) :
    getCurrentStation (play env st station m v).1 = some station ∧
    (mpvOnError st2 station emsg v2).1.currentStation = st2.currentStation ∧
    (vlcOnError st2 emsg2).1.currentStation = st2.currentStation ∧
    (onExit st3 code).1.currentStation = st3.currentStation ∧
    (stop env st2).1.currentStation = none ∧
    (forceStop env st2).1.currentStation = none := by
  refine ⟨by simpa [getCurrentStation] using play_currentStation env st station m v,
    ?_, ?_, ?_, rfl, rfl⟩
  · by_cases hc : containsENOENT emsg
    · cases v2 with
      | ok pid => cases pid <;> simp [mpvOnError, hc, tryVLC]
      | throws => simp [mpvOnError, hc, tryVLC]
    · simp [mpvOnError, hc]
  · by_cases hc : containsENOENT emsg2 <;> simp [vlcOnError, hc]
  · cases code with
    | none => rfl
    | some c => by_cases hc : c ≠ 0 <;> simp [onExit, hc]

/-- C10: every station in a search result comes from an ok-marked entry
of the directory response, and its `url` is the entry's resolved URL
when that is a non-empty string and the entry's raw url otherwise
(resolved absent or empty); the url field is always populated. -/
theorem C10_url_mapping (server : DirServer) (q g : String) (l : Nat)
    (resp resp2 : List RadioBrowserStation) (s s2 : RadioStation)
    (h1 : server (searchStationsParams q l) = .ok resp)
    (h2 : server (searchByGenreParams g l) = .ok resp2)
    (hs : s ∈ (searchStations server q l).1)
    (hs2 : s2 ∈ (searchByGenre server g l).1) :
    (∃ e, e ∈ resp ∧ e.lastcheckok = 1 ∧ s.url = specUrlChoice e) ∧
    (∃ e, e ∈ resp2 ∧ e.lastcheckok = 1 ∧ s2.url = specUrlChoice e) := by
  constructor
  · simp only [searchStations, h1, List.mem_map, List.mem_filter] at hs
    obtain ⟨e, ⟨he, hok⟩, rfl⟩ := hs
    exact ⟨e, he, by simpa using hok, mapBrowserStation_url e⟩
  · simp only [searchByGenre, h2, List.mem_map, List.mem_filter] at hs2
    obtain ⟨e, ⟨he, hok⟩, rfl⟩ := hs2
    exact ⟨e, he, by simpa using hok, mapBrowserStation_url e⟩

/-- Witness for C10 at the mixed three-entry response and the station
mapped from its first entry. -/
theorem C10_witness :
    (∃ e, e ∈ [entryOkA, entryOkB, entryBroken] ∧ e.lastcheckok = 1 ∧
      (mapBrowserStation entryOkA).url = specUrlChoice e) ∧
    (∃ e, e ∈ [entryOkA, entryOkB, entryBroken] ∧ e.lastcheckok = 1 ∧
      (mapBrowserStation entryOkB).url = specUrlChoice e) :=
  C10_url_mapping mixedServer "q" "g" 20 [entryOkA, entryOkB, entryBroken]
    [entryOkA, entryOkB, entryBroken] (mapBrowserStation entryOkA)
    (mapBrowserStation entryOkB) rfl rfl (by decide) (by decide)
